import Mathlib

/-!
Shallow embedding of the conversational-state core of CelsiusPulse:
the Session Registry (`src/core/menu_manager.py`), the Threshold Context
Store (`src/core/threshold_context_manager.py`), the Wizard State Machine
(`src/core/registration_manager.py`) and the Smart Menu Synchronizer
(`src/bot/utils.py`, `smart_update_current_menu`), together with the
registration input handler branch of `src/bot/handlers/input_handlers.py`.

Conventions: Python `int` ids are `Int`; wall-clock seconds are `Int`
(`time.time()`); milliseconds for the marker are `Nat`
(`int(time.time() * 1000)`); each manager's backing dict is a function
from id to `Option` of the stored dataclass; a mutating method becomes a
function returning the new store (paired with the Python return value).
-/

/-- `MenuState` dataclass of `src/core/menu_manager.py` (the per-user
session record of the Session Registry). `menu_context` is the
`Dict[str, Any]` context, modelled as an association list of strings,
which is how the code uses it (`step`, `group_name`, `device_id`). -/
structure MenuState where
  chat_id : Int
  message_id : Int
  menu_type : String
  menu_context : List (String × String)
  timestamp : Int
deriving DecidableEq

/-- `MenuState.is_expired`: `time.time() - self.timestamp > timeout_seconds`,
default timeout 3600 s. -/
def MenuState.is_expired (s : MenuState) (now : Int) (timeout_seconds : Int := 3600) : Bool :=
  decide (now - s.timestamp > timeout_seconds)

/-- The `_active_menus` dict of `MenuManager`, keyed by user id. -/
def MenuManager : Type := Int → Option MenuState

namespace MenuManager

/-- The freshly constructed `MenuManager` (empty dict). -/
def empty : MenuManager := fun _ => none

/-- `MenuManager.track_menu`: unconditionally overwrite the user's slot with
a new `MenuState` stamped at the current time (the Python default
`menu_context=None` becomes `{}` before storing; we model the already
defaulted dict). -/
def track_menu (m : MenuManager) (user_id chat_id message_id : Int)
    (menu_type : String) (menu_context : List (String × String)) (now : Int) : MenuManager :=
  fun u => if u = user_id then
    some { chat_id := chat_id, message_id := message_id, menu_type := menu_type,
           menu_context := menu_context, timestamp := now }
  else m u

/-- `MenuManager.clear_menu`: `pop(user_id, None)`. -/
def clear_menu (m : MenuManager) (user_id : Int) : MenuManager :=
  fun u => if u = user_id then none else m u

/-- `MenuManager.get_menu`: return the stored state, except that an expired
entry is evicted (`clear_menu`) and reported as `None`.  Returns the Python
return value together with the store after the call. -/
def get_menu (m : MenuManager) (user_id : Int) (now : Int) :
    Option MenuState × MenuManager :=
  match m user_id with
  | none => (none, m)
  | some st =>
    if st.is_expired now then (none, m.clear_menu user_id) else (some st, m)

end MenuManager

/-- `ThresholdContext` dataclass of `src/core/threshold_context_manager.py`
(the pending threshold-edit request of the Threshold Context Store). -/
structure ThresholdContext where
  chat_id : Int
  action : String
  group_name : String
  device_id : String
  message_id : Int
  timestamp : Int
deriving DecidableEq

/-- `ThresholdContext.is_expired`: `time.time() - self.timestamp > timeout_seconds`,
default timeout 600 s (10 minutes). -/
def ThresholdContext.is_expired (c : ThresholdContext) (now : Int)
    (timeout_seconds : Int := 600) : Bool :=
  decide (now - c.timestamp > timeout_seconds)

/-- The `_contexts` dict of `ThresholdContextManager`, keyed by user id. -/
def ThresholdContextManager : Type := Int → Option ThresholdContext

namespace ThresholdContextManager

/-- The freshly constructed `ThresholdContextManager` (empty dict). -/
def empty : ThresholdContextManager := fun _ => none

/-- `ThresholdContextManager.set_context`: unconditionally overwrite the
user's slot with a new `ThresholdContext` stamped at the current time. -/
def set_context (m : ThresholdContextManager) (user_id chat_id : Int)
    (action group_name device_id : String) (message_id : Int) (now : Int) :
    ThresholdContextManager :=
  fun u => if u = user_id then
    some { chat_id := chat_id, action := action, group_name := group_name,
           device_id := device_id, message_id := message_id, timestamp := now }
  else m u

/-- `ThresholdContextManager.clear_context`: `pop(user_id, None)`. -/
def clear_context (m : ThresholdContextManager) (user_id : Int) :
    ThresholdContextManager :=
  fun u => if u = user_id then none else m u

/-- `ThresholdContextManager.get_context`: the stored context, with lazy
eviction of an expired entry. -/
def get_context (m : ThresholdContextManager) (user_id : Int) (now : Int) :
    Option ThresholdContext × ThresholdContextManager :=
  match m user_id with
  | none => (none, m)
  | some c =>
    if c.is_expired now then (none, m.clear_context user_id) else (some c, m)

end ThresholdContextManager

/-- `RegistrationState` dataclass of `src/core/registration_manager.py`
(the per-chat wizard state). `fio` and `position` default to `None`,
`selected_groups` to the empty list. -/
structure RegistrationState where
  chat_id : Int
  registration_step : String
  fio : Option String := none
  position : Option String := none
  selected_groups : List String := []
  timestamp : Int
deriving DecidableEq

/-- `RegistrationState.is_expired`: `time.time() - self.timestamp > timeout_seconds`,
default timeout 1800 s (30 minutes). -/
def RegistrationState.is_expired (s : RegistrationState) (now : Int)
    (timeout_seconds : Int := 1800) : Bool :=
  decide (now - s.timestamp > timeout_seconds)

/-- The `_registration_states` dict of `RegistrationManager`, keyed by chat id. -/
def RegistrationManager : Type := Int → Option RegistrationState

namespace RegistrationManager

/-- The freshly constructed `RegistrationManager` (empty dict). -/
def empty : RegistrationManager := fun _ => none

/-- `RegistrationManager.start_registration`: unconditionally store a fresh
state in step `'fio'` for the chat (`fio`/`position` unset, no groups,
timestamp now). -/
def start_registration (m : RegistrationManager) (chat_id : Int) (now : Int) :
    RegistrationManager :=
  fun c => if c = chat_id then
    some { chat_id := chat_id, registration_step := "fio", timestamp := now }
  else m c

/-- `RegistrationManager.clear_registration`: `pop(chat_id, None)`. -/
def clear_registration (m : RegistrationManager) (chat_id : Int) :
    RegistrationManager :=
  fun c => if c = chat_id then none else m c

/-- `RegistrationManager.get_registration_state`: the stored state, with
lazy eviction of an expired entry. -/
def get_registration_state (m : RegistrationManager) (chat_id : Int) (now : Int) :
    Option RegistrationState × RegistrationManager :=
  match m chat_id with
  | none => (none, m)
  | some st =>
    if st.is_expired now then (none, m.clear_registration chat_id) else (some st, m)

/-- Store a (present) state back into the dict, as the Python in-place
mutation of the dataclass held by `_registration_states`. -/
def put (m : RegistrationManager) (chat_id : Int) (st : RegistrationState) :
    RegistrationManager :=
  fun c => if c = chat_id then some st else m c

/-- `RegistrationManager.update_fio`: valid only when a live state exists in
step `'fio'`; then set `fio`, move to `'region'`, refresh the timestamp and
return `True`; otherwise return `False` with no further change. -/
def update_fio (m : RegistrationManager) (chat_id : Int) (fio : String) (now : Int) :
    Bool × RegistrationManager :=
  match m.get_registration_state chat_id now with
  | (none, m') => (false, m')
  | (some st, m') =>
    if st.registration_step ≠ "fio" then (false, m')
    else (true, m'.put chat_id
      { st with fio := some fio, registration_step := "region", timestamp := now })

/-- `RegistrationManager.update_position`: valid only when a live state
exists in step `'position'`; then set `position`, move to `'completed'`,
refresh the timestamp and return `True`; otherwise `False`, no change. -/
def update_position (m : RegistrationManager) (chat_id : Int) (position : String)
    (now : Int) : Bool × RegistrationManager :=
  match m.get_registration_state chat_id now with
  | (none, m') => (false, m')
  | (some st, m') =>
    if st.registration_step ≠ "position" then (false, m')
    else (true, m'.put chat_id
      { st with position := some position, registration_step := "completed",
                timestamp := now })

/-- `RegistrationManager.toggle_group`: valid only when a live state exists
in step `'region'`; removes the group and returns `False` if present
(`list.remove` drops the first occurrence), appends it and returns `True`
otherwise; outside `'region'` returns `False` with no change. -/
def toggle_group (m : RegistrationManager) (chat_id : Int) (group : String)
    (now : Int) : Bool × RegistrationManager :=
  match m.get_registration_state chat_id now with
  | (none, m') => (false, m')
  | (some st, m') =>
    if st.registration_step ≠ "region" then (false, m')
    else if group ∈ st.selected_groups then
      (false, m'.put chat_id
        { st with selected_groups := st.selected_groups.erase group, timestamp := now })
    else
      (true, m'.put chat_id
        { st with selected_groups := st.selected_groups ++ [group], timestamp := now })

/-- `RegistrationManager.finish_group_selection`: valid only when a live
state exists in step `'region'` with a non-empty `selected_groups`; then
move to `'position'`, refresh the timestamp and return `True`; otherwise
`False`, no change. -/
def finish_group_selection (m : RegistrationManager) (chat_id : Int) (now : Int) :
    Bool × RegistrationManager :=
  match m.get_registration_state chat_id now with
  | (none, m') => (false, m')
  | (some st, m') =>
    if st.registration_step ≠ "region" ∨ st.selected_groups = [] then (false, m')
    else (true, m'.put chat_id
      { st with registration_step := "position", timestamp := now })

/-- The dict returned by `RegistrationManager.get_registration_data`
(`fio`, `position`, a copy of `groups`, `registration_timestamp`). -/
structure RegistrationData where
  fio : Option String
  position : Option String
  groups : List String
  registration_timestamp : Int
deriving DecidableEq

/-- `RegistrationManager.get_registration_data`: when a live state exists in
step `'completed'`, return its data (the state itself is left in place);
otherwise return `None` with no further change. -/
def get_registration_data (m : RegistrationManager) (chat_id : Int) (now : Int) :
    Option RegistrationData × RegistrationManager :=
  match m.get_registration_state chat_id now with
  | (none, m') => (none, m')
  | (some st, m') =>
    if st.registration_step ≠ "completed" then (none, m')
    else (some { fio := st.fio, position := st.position,
                 groups := st.selected_groups,
                 registration_timestamp := st.timestamp }, m')

end RegistrationManager

/-- `dict.get(key, default)` over the association-list model of the Python
string dictionaries. -/
def dictGetD (ctx : List (String × String)) (key dflt : String) : String :=
  match ctx.lookup key with
  | some v => v
  | none => dflt

/-- The `force_indicators` list of `smart_update_current_menu`
(`src/bot/utils.py` line 338): ten Braille characters used as invisible
uniqueness markers. -/
def force_indicators : List Char :=
  ['⠀', '⠁', '⠂', '⠃', '⠄', '⠅', '⠆', '⠇', '⠈', '⠉']

/-- `force_indicators[int(timestamp[-1])]` where
`timestamp = str(int(time.time() * 1000))[-3:]`: the marker is selected by
the final decimal digit of the millisecond clock, i.e. by `now_ms % 10`. -/
def force_char (now_ms : Nat) : Char :=
  force_indicators.getD (now_ms % 10) '⠀'

/-- `generate_context_aware_response` of `src/bot/utils.py`: the
context-dependent error text keyed by the tracked menu's kind and context
(the keyboard component of its return value is always `None` and is
reconstructed separately, so only the text is modelled). -/
def generate_context_aware_response (menu_type : String)
    (menu_context : List (String × String)) (error_message content_type : String) :
    String :=
  if menu_type = "device_threshold" then
    let device_id := dictGetD menu_context "device_id" "Устройство"
    let group_name := dictGetD menu_context "group_name" ""
    if group_name = "USER" ∧ device_id = "ALL" then
      if content_type = "📝 произвольный текст" ∨ content_type = "❌ недопустимые символы" then
        "❌ **Неверный формат пороговых значений**\n\nДля установки порогов всем вашим датчикам введите значения в формате: `мин макс`\n\nПример: `18 25`"
      else
        "❌ **" ++ error_message ++ "**\n\nОбнаружен: " ++ content_type ++
          "\n\nДля установки порогов используйте только текстовые сообщения."
    else
      if content_type = "📝 произвольный текст" ∨ content_type = "❌ недопустимые символы" then
        "❌ **Неверный формат пороговых значений**\n\nДля устройства `" ++ device_id ++
          "` введите пороги в формате: `мин макс`\n\nПример: `10 35`"
      else
        "❌ **" ++ error_message ++ "**\n\nОбнаружен: " ++ content_type ++
          "\n\nДля установки порогов используйте только текстовые сообщения."
  else if menu_type = "registration" then
    let step := dictGetD menu_context "step" "unknown"
    if step = "fio" then
      "❌ **" ++ error_message ++ "**\n\nОбнаружен: " ++ content_type ++
        "\n\nДля регистрации введите ваше полное ФИО в формате: Фамилия Имя Отчество"
    else if step = "position" then
      "❌ **" ++ error_message ++ "**\n\nОбнаружен: " ++ content_type ++
        "\n\nВведите вашу должность (например: Директор, Заместитель директора)"
    else
      "❌ **" ++ error_message ++ "**\n\nОбнаружен: " ++ content_type ++
        "\n\nПродолжите процесс регистрации."
  else
    "❌ **" ++ error_message ++ "**\n\nОбнаружен: " ++ content_type ++
      "\n\nИспользуйте кнопки меню для навигации."

/-- Outcome of one `bot.edit_message_text` call: success, the platform's
"Message is not modified" rejection, or any other error. -/
inductive EditOutcome where
  | success
  | notModified
  | otherError
deriving DecidableEq

/-- One outbound `edit_message_text` call issued by the Synchronizer
(target message and full rendered text). -/
structure EditCall where
  chat_id : Int
  message_id : Int
  text : String
deriving DecidableEq

/-- Result of `smart_update_current_menu`: the Python return value, the
Session Registry after the call, and the outbound platform edit calls in
order. -/
structure SmartUpdateResult where
  handled : Bool
  menus : MenuManager
  edits : List EditCall

/-- `smart_update_current_menu` of `src/bot/utils.py`.  `now` is the
second-resolution clock used for TTL, `now_ms` the millisecond clock read
for the invisible marker, `update_time` the `"%H:%M:%S"` string of the
retry suffix, and `editMessage` the platform's response to an attempted
edit.  Steps: read the session (lazy-expiring `get_menu`); report
not-handled with zero platform calls when absent (or when the stored ids
are falsy); otherwise compose the context-aware text, append the invisible
Braille marker, and attempt the edit; on a not-modified rejection retry
exactly once with a visible timestamp suffix instead; the registry is not
written on any path. -/
def smart_update_current_menu (m : MenuManager) (user_id : Int)
    (error_message content_type : String) (now : Int) (now_ms : Nat)
    (update_time : String) (editMessage : EditCall → EditOutcome) :
    SmartUpdateResult :=
  match m.get_menu user_id now with
  | (none, m') => ⟨false, m', []⟩
  | (some mi, m') =>
    if mi.chat_id = 0 ∨ mi.message_id = 0 then ⟨false, m', []⟩
    else
      let response_text :=
        generate_context_aware_response mi.menu_type mi.menu_context
          error_message content_type
      let e1 : EditCall :=
        ⟨mi.chat_id, mi.message_id, response_text.push (force_char now_ms)⟩
      match editMessage e1 with
      | .success => ⟨true, m', [e1]⟩
      | .otherError => ⟨false, m', [e1]⟩
      | .notModified =>
        let e2 : EditCall :=
          ⟨mi.chat_id, mi.message_id,
           response_text ++ "\n\n`⟨ обновлено " ++ update_time ++ " ⟩`"⟩
        match editMessage e2 with
        | .success => ⟨true, m', [e1, e2]⟩
        | _ => ⟨false, m', [e1, e2]⟩

/-- The `step == 'fio'` branch of
`InputHandler._handle_registration_input` (`src/bot/handlers/input_handlers.py`
lines 328-352): the external validator decides accept/reject; on reject an
error prompt is sent and the wizard state is not touched; on accept
`update_fio` runs. -/
def handle_registration_input_fio (validate_fio : String → Bool)
    (m : RegistrationManager) (chat_id : Int) (text : String) (now : Int) :
    RegistrationManager :=
  if ¬ validate_fio text then m
  else (m.update_fio chat_id text now).2

namespace MenuManager

/-- A live (present, unexpired) entry is returned unchanged and the store
is untouched. -/
theorem get_menu_live {m : MenuManager} {user now : Int} {st : MenuState}
    (hm : m user = some st) (hexp : st.is_expired now = false) :
    m.get_menu user now = (some st, m) := by
  unfold get_menu
  rw [hm]
  simp [hexp]

/-- Reading an absent entry returns `None` and leaves the store untouched. -/
theorem get_menu_none {m : MenuManager} {user now : Int} (hm : m user = none) :
    m.get_menu user now = (none, m) := by
  unfold get_menu
  rw [hm]

/-- Reading an expired entry returns `None` and evicts it. -/
theorem get_menu_expired {m : MenuManager} {user now : Int} {st : MenuState}
    (hm : m user = some st) (hexp : st.is_expired now = true) :
    m.get_menu user now = (none, m.clear_menu user) := by
  unfold get_menu
  rw [hm]
  simp [hexp]

end MenuManager

namespace ThresholdContextManager

/-- A live (present, unexpired) context is returned unchanged and the store
is untouched. -/
theorem get_context_live {m : ThresholdContextManager} {user now : Int}
    {c : ThresholdContext} (hm : m user = some c) (hexp : c.is_expired now = false) :
    m.get_context user now = (some c, m) := by
  unfold get_context
  rw [hm]
  simp [hexp]

/-- Reading an absent context returns `None`, store untouched. -/
theorem get_context_none {m : ThresholdContextManager} {user now : Int}
    (hm : m user = none) : m.get_context user now = (none, m) := by
  unfold get_context
  rw [hm]

/-- Reading an expired context returns `None` and evicts it. -/
theorem get_context_expired {m : ThresholdContextManager} {user now : Int}
    {c : ThresholdContext} (hm : m user = some c) (hexp : c.is_expired now = true) :
    m.get_context user now = (none, m.clear_context user) := by
  unfold get_context
  rw [hm]
  simp [hexp]

end ThresholdContextManager

namespace RegistrationManager

/-- A live (present, unexpired) wizard state is returned unchanged and the
store is untouched. -/
theorem get_state_live {m : RegistrationManager} {chat now : Int}
    {st : RegistrationState} (hm : m chat = some st)
    (hexp : st.is_expired now = false) :
    m.get_registration_state chat now = (some st, m) := by
  unfold get_registration_state
  rw [hm]
  simp [hexp]

/-- Reading an absent wizard state returns `None`, store untouched. -/
theorem get_state_none {m : RegistrationManager} {chat now : Int}
    (hm : m chat = none) :
    m.get_registration_state chat now = (none, m) := by
  unfold get_registration_state
  rw [hm]

/-- Reading an expired wizard state returns `None` and evicts it. -/
theorem get_state_expired {m : RegistrationManager} {chat now : Int}
    {st : RegistrationState} (hm : m chat = some st)
    (hexp : st.is_expired now = true) :
    m.get_registration_state chat now = (none, m.clear_registration chat) := by
  unfold get_registration_state
  rw [hm]
  simp [hexp]

/-- Characterization of a successful `get_registration_state`: the state was
stored, unexpired, and the store is unchanged. -/
theorem get_state_some {m m' : RegistrationManager} {chat now : Int}
    {st : RegistrationState}
    (hg : m.get_registration_state chat now = (some st, m')) :
    m chat = some st ∧ st.is_expired now = false ∧ m' = m := by
  cases hmc : m chat with
  | none =>
    rw [get_state_none hmc] at hg
    simp at hg
  | some st₀ =>
    cases hexp : st₀.is_expired now with
    | false =>
      rw [get_state_live hmc hexp] at hg
      simp only [Prod.mk.injEq, Option.some.injEq] at hg
      obtain ⟨h1, h2⟩ := hg
      subst h1
      subst h2
      exact ⟨rfl, hexp, rfl⟩
    | true =>
      rw [get_state_expired hmc hexp] at hg
      simp at hg

/-- The store component returned by `get_registration_state` is the original
store or the original store with the chat's entry evicted. -/
theorem get_state_snd {m : RegistrationManager} {chat now : Int} :
    (m.get_registration_state chat now).2 = m ∨
    (m.get_registration_state chat now).2 = m.clear_registration chat := by
  cases hmc : m chat with
  | none => left; rw [get_state_none hmc]
  | some st₀ =>
    cases hexp : st₀.is_expired now with
    | false => left; rw [get_state_live hmc hexp]
    | true => right; rw [get_state_expired hmc hexp]

/-- State invariant maintained by every `RegistrationManager` operation:
the selected groups never contain duplicates, and a state sitting in step
`'fio'` has no selected groups (groups are only ever added in step
`'region'`, and every route into `'fio'` is a fresh state). -/
def StateInv (st : RegistrationState) : Prop :=
  st.selected_groups.Nodup ∧ (st.registration_step = "fio" → st.selected_groups = [])

/-- The invariant, over every entry of the store. -/
def Inv (m : RegistrationManager) : Prop :=
  ∀ c st, m c = some st → StateInv st

theorem inv_empty : Inv empty := by
  intro c st h
  cases h

theorem inv_clear {m : RegistrationManager} (h : Inv m) (chat : Int) :
    Inv (m.clear_registration chat) := by
  intro c st hc
  unfold clear_registration at hc
  by_cases hcc : c = chat
  · simp [hcc] at hc
  · rw [if_neg hcc] at hc
    exact h c st hc

theorem inv_put {m : RegistrationManager} (h : Inv m) {chat : Int}
    {st₀ : RegistrationState} (h₀ : StateInv st₀) :
    Inv (m.put chat st₀) := by
  intro c st hc
  unfold put at hc
  by_cases hcc : c = chat
  · rw [if_pos hcc] at hc
    cases hc
    exact h₀
  · rw [if_neg hcc] at hc
    exact h c st hc

theorem inv_start {m : RegistrationManager} (h : Inv m) (chat now : Int) :
    Inv (m.start_registration chat now) := by
  intro c st hc
  unfold start_registration at hc
  by_cases hcc : c = chat
  · rw [if_pos hcc] at hc
    cases hc
    exact ⟨List.nodup_nil, fun _ => rfl⟩
  · rw [if_neg hcc] at hc
    exact h c st hc

theorem inv_get_state {m : RegistrationManager} (h : Inv m) (chat now : Int) :
    Inv (m.get_registration_state chat now).2 := by
  rcases @get_state_snd m chat now with h' | h'
  · rw [h']; exact h
  · rw [h']; exact inv_clear h chat

theorem inv_update_fio {m : RegistrationManager} (h : Inv m) (chat : Int)
    (fio : String) (now : Int) :
    Inv (m.update_fio chat fio now).2 := by
  unfold update_fio
  rcases hg : m.get_registration_state chat now with ⟨o, m'⟩
  have hm' : Inv m' := by
    have h2 := inv_get_state h chat now
    rw [hg] at h2
    exact h2
  cases o with
  | none => exact hm'
  | some st =>
    have hst : StateInv st := by
      rcases get_state_some hg with ⟨hmc, _, _⟩
      exact h chat st hmc
    dsimp only
    by_cases hstep : st.registration_step ≠ "fio"
    · rw [if_pos hstep]
      exact hm'
    · rw [if_neg hstep]
      exact inv_put hm' ⟨hst.1, by intro hh; simp at hh⟩

theorem inv_update_position {m : RegistrationManager} (h : Inv m) (chat : Int)
    (position : String) (now : Int) :
    Inv (m.update_position chat position now).2 := by
  unfold update_position
  rcases hg : m.get_registration_state chat now with ⟨o, m'⟩
  have hm' : Inv m' := by
    have h2 := inv_get_state h chat now
    rw [hg] at h2
    exact h2
  cases o with
  | none => exact hm'
  | some st =>
    have hst : StateInv st := by
      rcases get_state_some hg with ⟨hmc, _, _⟩
      exact h chat st hmc
    dsimp only
    by_cases hstep : st.registration_step ≠ "position"
    · rw [if_pos hstep]
      exact hm'
    · rw [if_neg hstep]
      exact inv_put hm' ⟨hst.1, by intro hh; simp at hh⟩

theorem inv_toggle_group {m : RegistrationManager} (h : Inv m) (chat : Int)
    (group : String) (now : Int) :
    Inv (m.toggle_group chat group now).2 := by
  unfold toggle_group
  rcases hg : m.get_registration_state chat now with ⟨o, m'⟩
  have hm' : Inv m' := by
    have h2 := inv_get_state h chat now
    rw [hg] at h2
    exact h2
  cases o with
  | none => exact hm'
  | some st =>
    have hst : StateInv st := by
      rcases get_state_some hg with ⟨hmc, _, _⟩
      exact h chat st hmc
    dsimp only
    by_cases hstep : st.registration_step ≠ "region"
    · rw [if_pos hstep]
      exact hm'
    · rw [if_neg hstep]
      rw [not_not] at hstep
      by_cases hmem : group ∈ st.selected_groups
      · rw [if_pos hmem]
        exact inv_put hm' ⟨hst.1.erase group, by intro hh; simp [hstep] at hh⟩
      · rw [if_neg hmem]
        refine inv_put hm' ⟨?_, by intro hh; simp [hstep] at hh⟩
        rw [List.nodup_append]
        exact ⟨hst.1, List.nodup_singleton group,
          fun x hx hx' => hmem ((List.mem_singleton.mp hx') ▸ hx)⟩

theorem inv_finish_group_selection {m : RegistrationManager} (h : Inv m)
    (chat now : Int) :
    Inv (m.finish_group_selection chat now).2 := by
  unfold finish_group_selection
  rcases hg : m.get_registration_state chat now with ⟨o, m'⟩
  have hm' : Inv m' := by
    have h2 := inv_get_state h chat now
    rw [hg] at h2
    exact h2
  cases o with
  | none => exact hm'
  | some st =>
    have hst : StateInv st := by
      rcases get_state_some hg with ⟨hmc, _, _⟩
      exact h chat st hmc
    dsimp only
    by_cases hc : st.registration_step ≠ "region" ∨ st.selected_groups = []
    · rw [if_pos hc]
      exact hm'
    · rw [if_neg hc]
      exact inv_put hm' ⟨hst.1, by intro hh; simp at hh⟩

theorem inv_get_data {m : RegistrationManager} (h : Inv m) (chat now : Int) :
    Inv (m.get_registration_data chat now).2 := by
  unfold get_registration_data
  rcases hg : m.get_registration_state chat now with ⟨o, m'⟩
  have hm' : Inv m' := by
    have h2 := inv_get_state h chat now
    rw [hg] at h2
    exact h2
  cases o with
  | none => exact hm'
  | some st =>
    dsimp only
    by_cases hstep : st.registration_step ≠ "completed"
    · rw [if_pos hstep]
      exact hm'
    · rw [if_neg hstep]
      exact hm'

/-- The stores reachable through the public `RegistrationManager` interface
from a fresh (empty) manager. -/
inductive Reachable : RegistrationManager → Prop where
  | empty : Reachable RegistrationManager.empty
  | start {m : RegistrationManager} (chat now : Int) :
      Reachable m → Reachable (m.start_registration chat now)
  | clear {m : RegistrationManager} (chat : Int) :
      Reachable m → Reachable (m.clear_registration chat)
  | get_state {m : RegistrationManager} (chat now : Int) :
      Reachable m → Reachable (m.get_registration_state chat now).2
  | fio {m : RegistrationManager} (chat : Int) (s : String) (now : Int) :
      Reachable m → Reachable (m.update_fio chat s now).2
  | pos {m : RegistrationManager} (chat : Int) (s : String) (now : Int) :
      Reachable m → Reachable (m.update_position chat s now).2
  | toggle {m : RegistrationManager} (chat : Int) (g : String) (now : Int) :
      Reachable m → Reachable (m.toggle_group chat g now).2
  | finish {m : RegistrationManager} (chat now : Int) :
      Reachable m → Reachable (m.finish_group_selection chat now).2
  | data {m : RegistrationManager} (chat now : Int) :
      Reachable m → Reachable (m.get_registration_data chat now).2

/-- Every reachable store satisfies the invariant. -/
theorem Reachable.inv {m : RegistrationManager} (h : Reachable m) : Inv m := by
  induction h with
  | empty => exact inv_empty
  | start chat now _ ih => exact inv_start ih chat now
  | clear chat _ ih => exact inv_clear ih chat
  | get_state chat now _ ih => exact inv_get_state ih chat now
  | fio chat s now _ ih => exact inv_update_fio ih chat s now
  | pos chat s now _ ih => exact inv_update_position ih chat s now
  | toggle chat g now _ ih => exact inv_toggle_group ih chat g now
  | finish chat now _ ih => exact inv_finish_group_selection ih chat now
  | data chat now _ ih => exact inv_get_data ih chat now

end RegistrationManager

namespace RegistrationManager

/-- `update_fio` on a live state in step `'fio'`: accepts, stores the name,
moves to `'region'`, refreshes the timestamp. -/
theorem update_fio_accept {m : RegistrationManager} {chat now : Int}
    {st : RegistrationState} {s : String} (hm : m chat = some st)
    (hexp : st.is_expired now = false) (hstep : st.registration_step = "fio") :
    m.update_fio chat s now =
      (true, m.put chat
        { st with fio := some s, registration_step := "region", timestamp := now }) := by
  unfold update_fio
  rw [get_state_live hm hexp]
  dsimp only
  rw [if_neg (not_not_intro hstep)]

/-- `update_fio` on a live state not in step `'fio'`: `False`, no change. -/
theorem update_fio_reject {m : RegistrationManager} {chat now : Int}
    {st : RegistrationState} {s : String} (hm : m chat = some st)
    (hexp : st.is_expired now = false) (hstep : st.registration_step ≠ "fio") :
    m.update_fio chat s now = (false, m) := by
  unfold update_fio
  rw [get_state_live hm hexp]
  dsimp only
  rw [if_pos hstep]

/-- `update_fio` with no stored state: `False`, no change. -/
theorem update_fio_absent {m : RegistrationManager} {chat now : Int} {s : String}
    (hm : m chat = none) : m.update_fio chat s now = (false, m) := by
  unfold update_fio
  rw [get_state_none hm]

/-- `update_position` on a live state not in step `'position'`. -/
theorem update_position_reject {m : RegistrationManager} {chat now : Int}
    {st : RegistrationState} {s : String} (hm : m chat = some st)
    (hexp : st.is_expired now = false) (hstep : st.registration_step ≠ "position") :
    m.update_position chat s now = (false, m) := by
  unfold update_position
  rw [get_state_live hm hexp]
  dsimp only
  rw [if_pos hstep]

/-- `update_position` with no stored state. -/
theorem update_position_absent {m : RegistrationManager} {chat now : Int} {s : String}
    (hm : m chat = none) : m.update_position chat s now = (false, m) := by
  unfold update_position
  rw [get_state_none hm]

/-- `toggle_group` on a live state not in step `'region'`: `False`, no change. -/
theorem toggle_group_reject {m : RegistrationManager} {chat now : Int}
    {st : RegistrationState} {g : String} (hm : m chat = some st)
    (hexp : st.is_expired now = false) (hstep : st.registration_step ≠ "region") :
    m.toggle_group chat g now = (false, m) := by
  unfold toggle_group
  rw [get_state_live hm hexp]
  dsimp only
  rw [if_pos hstep]

/-- `toggle_group` with no stored state. -/
theorem toggle_group_absent {m : RegistrationManager} {chat now : Int} {g : String}
    (hm : m chat = none) : m.toggle_group chat g now = (false, m) := by
  unfold toggle_group
  rw [get_state_none hm]

/-- `toggle_group` in step `'region'` on a currently selected group: the
first occurrence is removed and `False` ("removed") is returned. -/
theorem toggle_group_remove {m : RegistrationManager} {chat now : Int}
    {st : RegistrationState} {g : String} (hm : m chat = some st)
    (hexp : st.is_expired now = false) (hstep : st.registration_step = "region")
    (hmem : g ∈ st.selected_groups) :
    m.toggle_group chat g now =
      (false, m.put chat
        { st with selected_groups := st.selected_groups.erase g, timestamp := now }) := by
  unfold toggle_group
  rw [get_state_live hm hexp]
  dsimp only
  rw [if_neg (not_not_intro hstep), if_pos hmem]

/-- `toggle_group` in step `'region'` on an unselected group: the group is
appended and `True` ("added") is returned. -/
theorem toggle_group_add {m : RegistrationManager} {chat now : Int}
    {st : RegistrationState} {g : String} (hm : m chat = some st)
    (hexp : st.is_expired now = false) (hstep : st.registration_step = "region")
    (hmem : g ∉ st.selected_groups) :
    m.toggle_group chat g now =
      (true, m.put chat
        { st with selected_groups := st.selected_groups ++ [g], timestamp := now }) := by
  unfold toggle_group
  rw [get_state_live hm hexp]
  dsimp only
  rw [if_neg (not_not_intro hstep), if_neg hmem]

/-- `finish_group_selection` fails (wrong step or empty selection): `False`,
no change. -/
theorem finish_group_selection_fail {m : RegistrationManager} {chat now : Int}
    {st : RegistrationState} (hm : m chat = some st)
    (hexp : st.is_expired now = false)
    (h : st.registration_step ≠ "region" ∨ st.selected_groups = []) :
    m.finish_group_selection chat now = (false, m) := by
  unfold finish_group_selection
  rw [get_state_live hm hexp]
  dsimp only
  rw [if_pos h]

/-- `finish_group_selection` with no stored state. -/
theorem finish_group_selection_absent {m : RegistrationManager} {chat now : Int}
    (hm : m chat = none) : m.finish_group_selection chat now = (false, m) := by
  unfold finish_group_selection
  rw [get_state_none hm]

/-- `get_registration_data` on a live `'completed'` state: returns the
recorded data and leaves the store — including the completed state —
unchanged. -/
theorem get_data_completed {m : RegistrationManager} {chat now : Int}
    {st : RegistrationState} (hm : m chat = some st)
    (hexp : st.is_expired now = false) (hstep : st.registration_step = "completed") :
    m.get_registration_data chat now =
      (some ⟨st.fio, st.position, st.selected_groups, st.timestamp⟩, m) := by
  unfold get_registration_data
  rw [get_state_live hm hexp]
  dsimp only
  rw [if_neg (not_not_intro hstep)]

/-- `get_registration_data` on a live state not in `'completed'`: empty, no
change. -/
theorem get_data_not_completed {m : RegistrationManager} {chat now : Int}
    {st : RegistrationState} (hm : m chat = some st)
    (hexp : st.is_expired now = false) (hstep : st.registration_step ≠ "completed") :
    m.get_registration_data chat now = (none, m) := by
  unfold get_registration_data
  rw [get_state_live hm hexp]
  dsimp only
  rw [if_pos hstep]

/-- `get_registration_data` with no stored state. -/
theorem get_data_absent {m : RegistrationManager} {chat now : Int}
    (hm : m chat = none) : m.get_registration_data chat now = (none, m) := by
  unfold get_registration_data
  rw [get_state_none hm]

end RegistrationManager

/-- Behavior of `smart_update_current_menu` on a live session with usable
message coordinates: the Session Registry is left unchanged, the first
outbound edit is the context-aware text plus the invisible marker, and a
successful first edit yields exactly that one platform call and `True`. -/
theorem smart_update_spec (m : MenuManager) (user : Int)
    (em ct : String) (now : Int) (t_ms : Nat) (ut : String)
    (editFn : EditCall → EditOutcome) (st : MenuState)
    (hm : m user = some st) (hexp : st.is_expired now = false)
    (hid : ¬(st.chat_id = 0 ∨ st.message_id = 0)) :
    (smart_update_current_menu m user em ct now t_ms ut editFn).menus = m
    ∧ (smart_update_current_menu m user em ct now t_ms ut editFn).edits.head?
        = some ⟨st.chat_id, st.message_id,
            (generate_context_aware_response st.menu_type st.menu_context em ct).push
              (force_char t_ms)⟩
    ∧ (editFn ⟨st.chat_id, st.message_id,
          (generate_context_aware_response st.menu_type st.menu_context em ct).push
            (force_char t_ms)⟩ = EditOutcome.success →
        smart_update_current_menu m user em ct now t_ms ut editFn
          = ⟨true, m,
             [⟨st.chat_id, st.message_id,
               (generate_context_aware_response st.menu_type st.menu_context em ct).push
                 (force_char t_ms)⟩]⟩) := by
  unfold smart_update_current_menu
  rw [MenuManager.get_menu_live hm hexp]
  dsimp only
  rw [if_neg hid]
  cases h1 : editFn ⟨st.chat_id, st.message_id,
      (generate_context_aware_response st.menu_type st.menu_context em ct).push
        (force_char t_ms)⟩ with
  | success => exact ⟨rfl, rfl, fun _ => rfl⟩
  | otherError =>
    exact ⟨rfl, rfl, fun hs => by cases hs⟩
  | notModified =>
    cases h2 : editFn ⟨st.chat_id, st.message_id,
        generate_context_aware_response st.menu_type st.menu_context em ct ++
          "\n\n`⟨ обновлено " ++ ut ++ " ⟩`"⟩ with
    | success =>
      exact ⟨rfl, rfl, fun hs => by cases hs⟩
    | notModified =>
      exact ⟨rfl, rfl, fun hs => by cases hs⟩
    | otherError =>
      exact ⟨rfl, rfl, fun hs => by cases hs⟩

/-- The marker alphabet has exactly ten characters. -/
theorem force_indicators_card : force_indicators.length = 10 := rfl

/-- The selected marker always comes from the fixed ten-character alphabet. -/
theorem force_char_mem (t : Nat) : force_char t ∈ force_indicators := by
  have h : t % 10 < 10 := Nat.mod_lt _ (by decide)
  have hall : ∀ d, d < 10 → force_indicators.getD d '⠀' ∈ force_indicators := by decide
  exact hall _ h

/-- Distinct final millisecond digits select distinct markers. -/
theorem force_char_inj {t₁ t₂ : Nat} (h : t₁ % 10 ≠ t₂ % 10) :
    force_char t₁ ≠ force_char t₂ := by
  have h₁ : t₁ % 10 < 10 := Nat.mod_lt _ (by decide)
  have h₂ : t₂ % 10 < 10 := Nat.mod_lt _ (by decide)
  have hall : ∀ d₁, d₁ < 10 → ∀ d₂, d₂ < 10 → d₁ ≠ d₂ →
      force_indicators.getD d₁ '⠀' ≠ force_indicators.getD d₂ '⠀' := by decide
  exact hall _ h₁ _ h₂ h

/-- Appending distinct single characters to the same base text yields
distinct texts. -/
theorem string_push_ne (s : String) {c₁ c₂ : Char} (h : c₁ ≠ c₂) :
    s.push c₁ ≠ s.push c₂ := by
  intro he
  apply h
  have hd := congrArg String.data he
  simp [String.push] at hd
  exact hd

/-- A session registry holding one menu for user 1, tracked at time 0:
message 7 in chat 5, kind `main`, empty context. -/
def menuDemo : MenuManager :=
  MenuManager.track_menu MenuManager.empty 1 5 7 "main" [] 0

/-
Claims.
-/

/-- C1: both the Session Registry and the Threshold Context Store are
single-slot last-write-wins stores: whatever sequence of writes produced
the current store, one more `track_menu` / `set_context` for a user
followed by a read inside the TTL returns exactly the record of that last
write (and in particular nothing of any earlier write's context survives). -/
theorem stores_last_write_wins
    (m : MenuManager) (tm : ThresholdContextManager)
    (user chat msg tchat mid : Int) (kind : String) (ctx : List (String × String))
    (action g d : String) (t now : Int)
    (h1 : now - t ≤ 3600) (h2 : now - t ≤ 600) :
    (MenuManager.track_menu m user chat msg kind ctx t).get_menu user now
      = (some ⟨chat, msg, kind, ctx, t⟩,
         MenuManager.track_menu m user chat msg kind ctx t)
    ∧ (ThresholdContextManager.set_context tm user tchat action g d mid t).get_context user now
      = (some ⟨tchat, action, g, d, mid, t⟩,
         ThresholdContextManager.set_context tm user tchat action g d mid t) := by
  constructor
  · apply MenuManager.get_menu_live
    · simp [MenuManager.track_menu]
    · simp only [MenuState.is_expired, decide_eq_false_iff_not, not_lt]
      exact h1
  · apply ThresholdContextManager.get_context_live
    · simp [ThresholdContextManager.set_context]
    · simp only [ThresholdContext.is_expired, decide_eq_false_iff_not, not_lt]
      exact h2

/-- Witness for C1 at a concrete input: a tracked menu and a pending
threshold request read back immediately are exactly the last write. -/
theorem stores_last_write_wins_witness :
    ((MenuManager.track_menu MenuManager.empty 1 5 7 "main" [] 0).get_menu 1 0).1
      = some ⟨5, 7, "main", [], 0⟩
    ∧ ((ThresholdContextManager.set_context ThresholdContextManager.empty
          1 5 "set_threshold_device" "KRR" "D7" 9 0).get_context 1 0).1
      = some ⟨5, "set_threshold_device", "KRR", "D7", 9, 0⟩ := by
  have h := stores_last_write_wins MenuManager.empty ThresholdContextManager.empty
    1 5 7 5 9 "main" [] "set_threshold_device" "KRR" "D7" 0 0
    (by decide) (by decide)
  exact ⟨by rw [h.1], by rw [h.2]⟩

/-- C2: a read strictly later than the TTL (3600 s for sessions, 600 s for
threshold contexts) after the entry's timestamp returns empty and evicts
the entry, making it indistinguishable from one that never existed: the
slot is empty afterwards and a repeated read behaves exactly like a read
on a store that never held the entry. -/
theorem expired_entry_reads_empty_and_evicts
    (m : MenuManager) (tm : ThresholdContextManager) (user nowm nowt : Int)
    (st : MenuState) (c : ThresholdContext)
    (hm : m user = some st) (hst : nowm - st.timestamp > 3600)
    (htc : tm user = some c) (hc : nowt - c.timestamp > 600) :
    m.get_menu user nowm = (none, m.clear_menu user)
    ∧ (m.clear_menu user) user = none
    ∧ (m.clear_menu user).get_menu user nowm = (none, m.clear_menu user)
    ∧ tm.get_context user nowt = (none, tm.clear_context user)
    ∧ (tm.clear_context user) user = none
    ∧ (tm.clear_context user).get_context user nowt = (none, tm.clear_context user) := by
  have hb : st.is_expired nowm = true := by
    simp only [MenuState.is_expired, decide_eq_true_eq]
    exact hst
  have hb' : c.is_expired nowt = true := by
    simp only [ThresholdContext.is_expired, decide_eq_true_eq]
    exact hc
  have he : (m.clear_menu user) user = none := by simp [MenuManager.clear_menu]
  have he' : (tm.clear_context user) user = none := by
    simp [ThresholdContextManager.clear_context]
  exact ⟨MenuManager.get_menu_expired hm hb, he, MenuManager.get_menu_none he,
    ThresholdContextManager.get_context_expired htc hb', he',
    ThresholdContextManager.get_context_none he'⟩

/-- Witness for C2 at the spec's concrete input: a session tracked at t=0
is empty when read at t=3601, and a threshold context set at t=0 is empty
when read at t=601. -/
theorem expired_entry_reads_empty_and_evicts_witness :
    (menuDemo.get_menu 1 3601).1 = none
    ∧ ((ThresholdContextManager.set_context ThresholdContextManager.empty
          1 5 "set_threshold_device" "KRR" "D7" 9 0).get_context 1 601).1 = none := by
  have h := expired_entry_reads_empty_and_evicts menuDemo
    (ThresholdContextManager.set_context ThresholdContextManager.empty
      1 5 "set_threshold_device" "KRR" "D7" 9 0) 1 3601 601
    ⟨5, 7, "main", [], 0⟩ ⟨5, "set_threshold_device", "KRR", "D7", 9, 0⟩
    (by decide) (by decide) (by decide) (by decide)
  exact ⟨by rw [h.1], by rw [h.2.2.2.1]⟩

/-- A complete wizard run for chat 1: start (t=0), name (t=1), one group
`KRR` (t=2), finish groups (t=3), position (t=4); the state is now in step
`'completed'`. -/
def regDemoCompleted : RegistrationManager :=
  (RegistrationManager.update_position
    (RegistrationManager.finish_group_selection
      (RegistrationManager.toggle_group
        (RegistrationManager.update_fio
          (RegistrationManager.start_registration RegistrationManager.empty 1 0)
          1 "Иванов Иван Иванович" 1).2
        1 "KRR" 2).2
      1 3).2
    1 "Директор" 4).2

/-- C3 counterexample: `get_registration_data` is not a consuming read.
After a completed flow, a first read returns the recorded data and a
second read immediately afterwards returns the very same data again —
not empty — because the read does not delete the state. -/
theorem consume_completed_second_read_cex :
    (regDemoCompleted.get_registration_data 1 5).1
      = some ⟨some "Иванов Иван Иванович", some "Директор", ["KRR"], 4⟩
    ∧ ((regDemoCompleted.get_registration_data 1 5).2.get_registration_data 1 5).1
      = some ⟨some "Иванов Иван Иванович", some "Директор", ["KRR"], 4⟩ := by
  exact ⟨by decide, by decide⟩

/-- C3 (amended): for a chat in step `'completed'` (live state),
`get_registration_data` returns exactly the recorded
`{fio, position, groups, registration timestamp}` but leaves the state in
place (the store is unchanged, so a second read returns the same data);
deletion happens only through the separate `clear_registration`, which the
caller invokes, after which reads return empty; for any chat not in
`'completed'` it returns empty and changes nothing. -/
theorem consume_completed_requires_explicit_clear
    (m : RegistrationManager) (chat now : Int) (st : RegistrationState)
    (hm : m chat = some st) (hexp : st.is_expired now = false) :
    (st.registration_step = "completed" →
       m.get_registration_data chat now
         = (some ⟨st.fio, st.position, st.selected_groups, st.timestamp⟩, m))
    ∧ (st.registration_step ≠ "completed" →
       m.get_registration_data chat now = (none, m))
    ∧ (m.clear_registration chat) chat = none
    ∧ (m.clear_registration chat).get_registration_data chat now
        = (none, m.clear_registration chat) := by
  have hcl : (m.clear_registration chat) chat = none := by
    simp [RegistrationManager.clear_registration]
  exact ⟨fun h => RegistrationManager.get_data_completed hm hexp h,
    fun h => RegistrationManager.get_data_not_completed hm hexp h,
    hcl, RegistrationManager.get_data_absent hcl⟩

/-- Witness for the amended C3: the completed demo flow read at t=5 yields
the recorded data, and after `clear_registration` the slot is empty. -/
theorem consume_completed_requires_explicit_clear_witness :
    (regDemoCompleted.get_registration_data 1 5).1
      = some ⟨some "Иванов Иван Иванович", some "Директор", ["KRR"], 4⟩
    ∧ (regDemoCompleted.clear_registration 1) 1 = none := by
  have h := consume_completed_requires_explicit_clear regDemoCompleted 1 5
    ⟨1, "completed", some "Иванов Иван Иванович", some "Директор", ["KRR"], 4⟩
    (by decide) (by decide)
  exact ⟨by rw [h.1 rfl], h.2.2.1⟩

/-- C4 counterexample: two consecutive, textually-identical error events at
different times (milliseconds 1000 and 2000, both ending in the digit 0)
produce byte-identical outbound edit payloads — the invisible marker
coincides, so the payloads are not distinct as claimed. -/
theorem identical_payloads_same_digit_cex :
    ((smart_update_current_menu menuDemo 1 "Неподдерживаемый тип сообщения"
        "📝 произвольный текст" 0 1000 "10:00:00"
        (fun _ => EditOutcome.success)).edits.map EditCall.text)
      = ((smart_update_current_menu menuDemo 1 "Неподдерживаемый тип сообщения"
        "📝 произвольный текст" 0 2000 "10:00:01"
        (fun _ => EditOutcome.success)).edits.map EditCall.text)
    ∧ (1000 : Nat) ≠ 2000 := by
  exact ⟨rfl, by decide⟩

/-- C4 (amended): before its first edit attempt the Synchronizer appends
exactly one marker character, chosen deterministically from the fixed
ten-character Braille alphabet by the final millisecond digit, and two
textually-identical error events produce distinct first-attempt payloads
whenever the final millisecond digits of their timestamps differ (when the
digits coincide the first-attempt payloads are identical, and only the
platform's not-modified retry adds a distinguishing visible suffix). -/
theorem marker_distinct_iff_final_digit_differs
    (m : MenuManager) (user now : Int) (st : MenuState)
    (em ct ut : String) (editFn : EditCall → EditOutcome)
    (t₁ t₂ : Nat) (base : String)
    (hm : m user = some st) (hexp : st.is_expired now = false)
    (hid : ¬(st.chat_id = 0 ∨ st.message_id = 0))
    (hd : t₁ % 10 ≠ t₂ % 10) :
    (smart_update_current_menu m user em ct now t₁ ut editFn).edits.head?
      = some ⟨st.chat_id, st.message_id,
          (generate_context_aware_response st.menu_type st.menu_context em ct).push
            (force_char t₁)⟩
    ∧ force_char t₁ ∈ force_indicators
    ∧ force_indicators.length = 10
    ∧ ((generate_context_aware_response st.menu_type st.menu_context em ct).push
          (force_char t₁)).length
        = (generate_context_aware_response st.menu_type st.menu_context em ct).length + 1
    ∧ base.push (force_char t₁) ≠ base.push (force_char t₂) := by
  refine ⟨(smart_update_spec m user em ct now t₁ ut editFn st hm hexp hid).2.1,
    force_char_mem t₁, force_indicators_card, ?_,
    string_push_ne base (force_char_inj hd)⟩
  simp [String.length_push]

/-- Witness for the amended C4 at a concrete input: the tracked demo menu
yields the marked payload as the first outbound edit, and the markers for
final digits 1 and 2 give distinct texts. -/
theorem marker_distinct_iff_final_digit_differs_witness :
    (smart_update_current_menu menuDemo 1 "e" "c" 0 1 "u"
        (fun _ => EditOutcome.success)).edits.head?
      = some ⟨5, 7, (generate_context_aware_response "main" [] "e" "c").push (force_char 1)⟩
    ∧ "x".push (force_char 1) ≠ "x".push (force_char 2) := by
  have h := marker_distinct_iff_final_digit_differs menuDemo 1 0 ⟨5, 7, "main", [], 0⟩
    "e" "c" "u" (fun _ => EditOutcome.success) 1 2 "x"
    (by decide) (by decide) (by decide) (by decide)
  exact ⟨h.1, h.2.2.2.2⟩

/-- C5 counterexample: a successful in-place edit does not re-track the
session.  The demo session was tracked at t=0; a successful smart update at
t=10 reports handled, yet the registry entry still carries timestamp 0 —
`updatedAt` was not refreshed to the render time 10. -/
theorem success_edit_not_refreshing_session_cex :
    (smart_update_current_menu menuDemo 1 "e" "c" 10 10000 "10:00:10"
        (fun _ => EditOutcome.success)).handled = true
    ∧ (smart_update_current_menu menuDemo 1 "e" "c" 10 10000 "10:00:10"
        (fun _ => EditOutcome.success)).menus 1 = some ⟨5, 7, "main", [], 0⟩
    ∧ (0 : Int) ≠ 10 := by
  exact ⟨rfl, by decide, by decide⟩

/-- C5 (amended): on every path — in particular on a successful in-place
edit — `smart_update_current_menu` leaves the Session Registry exactly as
it found it: the session is not re-tracked, the entry (including its
`updatedAt` timestamp) is unchanged, and the TTL window therefore still
dates from the original `track_menu`, not from the render. -/
theorem smart_update_leaves_registry_unchanged
    (m : MenuManager) (user : Int) (em ct : String) (now : Int) (t_ms : Nat)
    (ut : String) (editFn : EditCall → EditOutcome) (st : MenuState)
    (hm : m user = some st) (hexp : st.is_expired now = false) :
    (smart_update_current_menu m user em ct now t_ms ut editFn).menus = m
    ∧ (smart_update_current_menu m user em ct now t_ms ut editFn).menus user = some st := by
  have hmenus : (smart_update_current_menu m user em ct now t_ms ut editFn).menus = m := by
    by_cases hid : st.chat_id = 0 ∨ st.message_id = 0
    · unfold smart_update_current_menu
      rw [MenuManager.get_menu_live hm hexp]
      dsimp only
      rw [if_pos hid]
    · exact (smart_update_spec m user em ct now t_ms ut editFn st hm hexp hid).1
  exact ⟨hmenus, by rw [hmenus, hm]⟩

/-- Witness for the amended C5: a successful update of the demo session at
t=10 leaves the entry tracked at t=0 untouched. -/
theorem smart_update_leaves_registry_unchanged_witness :
    (smart_update_current_menu menuDemo 1 "e" "c" 10 0 "u"
        (fun _ => EditOutcome.success)).menus 1 = some ⟨5, 7, "main", [], 0⟩ := by
  exact (smart_update_leaves_registry_unchanged menuDemo 1 "e" "c" 10 0 "u"
    (fun _ => EditOutcome.success) ⟨5, 7, "main", [], 0⟩ (by decide) (by decide)).2

/-- A wizard state for chat 1 sitting (unexpired) in step `'region'` with a
recorded name: start at t=0, accepted name at t=1. -/
def regDemoRegion : RegistrationManager :=
  (RegistrationManager.update_fio
    (RegistrationManager.start_registration RegistrationManager.empty 1 0)
    1 "Иванов Иван Иванович" 1).2

/-- C6 counterexample: `start_registration` is not idempotent on an
unexpired in-progress state.  Chat 1 holds an unexpired `'region'` state at
t=2; calling start overwrites it with a fresh `'fio'` state, losing the
recorded name and step. -/
theorem start_overwrites_unexpired_state_cex :
    regDemoRegion 1 = some ⟨1, "region", some "Иванов Иван Иванович", none, [], 1⟩
    ∧ RegistrationState.is_expired
        ⟨1, "region", some "Иванов Иван Иванович", none, [], 1⟩ 2 = false
    ∧ (regDemoRegion.start_registration 1 2) 1 = some ⟨1, "fio", none, none, [], 2⟩
    ∧ (⟨1, "fio", none, none, [], 2⟩ : RegistrationState)
        ≠ ⟨1, "region", some "Иванов Иван Иванович", none, [], 1⟩ := by
  exact ⟨by decide, by decide, by decide, by decide⟩

/-- C6 (amended): `start_registration` unconditionally creates a fresh
state in step `'fio'` (Name) for the chat — also when an unexpired state
already exists, which it overwrites — and leaves every other chat's state
untouched.  (Idempotence on in-progress registrations is enforced by the
caller in `input_handlers.py`, which only invokes start when
`get_registration_step` reports no live state.) -/
theorem start_always_creates_fresh_state
    (m : RegistrationManager) (chat now : Int) :
    (m.start_registration chat now) chat = some ⟨chat, "fio", none, none, [], now⟩
    ∧ ∀ c, c ≠ chat → (m.start_registration chat now) c = m c := by
  constructor
  · simp [RegistrationManager.start_registration]
  · intro c hc
    simp [RegistrationManager.start_registration, hc]

/-- Witness for the amended C6 at a concrete input. -/
theorem start_always_creates_fresh_state_witness :
    (RegistrationManager.start_registration RegistrationManager.empty 1 5) 1
      = some ⟨1, "fio", none, none, [], 5⟩
    ∧ (RegistrationManager.start_registration RegistrationManager.empty 1 5) 2 = none := by
  have h := start_always_creates_fresh_state RegistrationManager.empty 1 5
  exact ⟨h.1, by rw [h.2 2 (by decide)]; rfl⟩

/-- C7: every Wizard State Machine operation invoked for a chat whose
current (live) step does not permit it returns its failure value (`False`
or `None`) and leaves the store completely unchanged — a benign no-op — and
likewise when the chat has no stored state at all; in particular
`finish_group_selection` fails with no transition when the selected-groups
set is empty.  (All operations are total Lean functions, mirroring that the
Python methods return rather than raise.) -/
theorem wrong_state_ops_are_benign_noops
    (m : RegistrationManager) (chat now : Int) (st : RegistrationState)
    (s g : String) :
    (m chat = some st → st.is_expired now = false →
      ((st.registration_step ≠ "fio" → m.update_fio chat s now = (false, m))
       ∧ (st.registration_step ≠ "position" → m.update_position chat s now = (false, m))
       ∧ (st.registration_step ≠ "region" → m.toggle_group chat g now = (false, m))
       ∧ (st.registration_step ≠ "region" ∨ st.selected_groups = [] →
            m.finish_group_selection chat now = (false, m))
       ∧ (st.registration_step ≠ "completed" →
            m.get_registration_data chat now = (none, m))))
    ∧ (m chat = none →
       (m.update_fio chat s now = (false, m)
        ∧ m.update_position chat s now = (false, m)
        ∧ m.toggle_group chat g now = (false, m)
        ∧ m.finish_group_selection chat now = (false, m)
        ∧ m.get_registration_data chat now = (none, m))) := by
  constructor
  · intro hm hexp
    exact ⟨fun h => RegistrationManager.update_fio_reject hm hexp h,
      fun h => RegistrationManager.update_position_reject hm hexp h,
      fun h => RegistrationManager.toggle_group_reject hm hexp h,
      fun h => RegistrationManager.finish_group_selection_fail hm hexp h,
      fun h => RegistrationManager.get_data_not_completed hm hexp h⟩
  · intro hm
    exact ⟨RegistrationManager.update_fio_absent hm,
      RegistrationManager.update_position_absent hm,
      RegistrationManager.toggle_group_absent hm,
      RegistrationManager.finish_group_selection_absent hm,
      RegistrationManager.get_data_absent hm⟩

/-- Witness for C7: a fresh `'fio'` state rejects every out-of-step
operation (including `finish_group_selection` on its empty set), and a chat
with no state rejects `update_fio`. -/
theorem wrong_state_ops_are_benign_noops_witness :
    ((RegistrationManager.start_registration RegistrationManager.empty 1 0).update_position
        1 "x" 0).1 = false
    ∧ ((RegistrationManager.start_registration RegistrationManager.empty 1 0).toggle_group
        1 "g" 0).1 = false
    ∧ ((RegistrationManager.start_registration RegistrationManager.empty 1 0).finish_group_selection
        1 0).1 = false
    ∧ ((RegistrationManager.start_registration RegistrationManager.empty 1 0).get_registration_data
        1 0).1 = none
    ∧ (RegistrationManager.empty.update_fio 2 "x" 0).1 = false := by
  have h := wrong_state_ops_are_benign_noops
    (RegistrationManager.start_registration RegistrationManager.empty 1 0) 1 0
    ⟨1, "fio", none, none, [], 0⟩ "x" "g"
  have h2 := wrong_state_ops_are_benign_noops RegistrationManager.empty 2 0
    ⟨2, "fio", none, none, [], 0⟩ "x" "g"
  have ha := h.1 (by decide) (by decide)
  exact ⟨by rw [ha.2.1 (by decide)], by rw [ha.2.2.1 (by decide)],
    by rw [ha.2.2.2.1 (by decide)], by rw [ha.2.2.2.2 (by decide)],
    by rw [(h2.2 rfl).1]⟩

/-- C8: `submitName` (the `'fio'` branch of the registration input handler
over the external validator, driving `update_fio`): for a chat with a live
(reachable) state in step `'fio'`, a rejected name changes nothing — the
state and its step `'fio'` survive untouched — while an accepted name
stores the name, moves the step to `'region'` (Groups), refreshes the
timestamp, and the chat arrives in Groups with an empty group set. -/
theorem submit_name_accept_reject
    (validate_fio : String → Bool) (m : RegistrationManager) (chat now : Int)
    (st : RegistrationState) (text : String)
    (hr : RegistrationManager.Reachable m) (hm : m chat = some st)
    (hexp : st.is_expired now = false) (hstep : st.registration_step = "fio") :
    (validate_fio text = false →
       handle_registration_input_fio validate_fio m chat text now = m
       ∧ (handle_registration_input_fio validate_fio m chat text now) chat = some st)
    ∧ (validate_fio text = true →
       (handle_registration_input_fio validate_fio m chat text now) chat
         = some ⟨st.chat_id, "region", some text, st.position, [], now⟩) := by
  have hg0 : st.selected_groups = [] :=
    ((RegistrationManager.Reachable.inv hr) chat st hm).2 hstep
  constructor
  · intro hv
    have heq : handle_registration_input_fio validate_fio m chat text now = m := by
      unfold handle_registration_input_fio
      rw [if_pos (by simp [hv])]
    exact ⟨heq, by rw [heq, hm]⟩
  · intro hv
    unfold handle_registration_input_fio
    rw [if_neg (by simp [hv]),
      RegistrationManager.update_fio_accept hm hexp hstep]
    simp [RegistrationManager.put, hg0]

/-- Witness for C8: from a freshly started registration, a rejected name
leaves the chat in `'fio'` with nothing recorded, and an accepted name
moves it to `'region'` with the name stored and no groups. -/
theorem submit_name_accept_reject_witness :
    (handle_registration_input_fio (fun _ => false)
        (RegistrationManager.start_registration RegistrationManager.empty 1 0)
        1 "abc" 3) 1
      = some ⟨1, "fio", none, none, [], 0⟩
    ∧ (handle_registration_input_fio (fun _ => true)
        (RegistrationManager.start_registration RegistrationManager.empty 1 0)
        1 "Иванов Иван Иванович" 3) 1
      = some ⟨1, "region", some "Иванов Иван Иванович", none, [], 3⟩ := by
  have hrej := (submit_name_accept_reject (fun _ => false)
    (RegistrationManager.start_registration RegistrationManager.empty 1 0) 1 3
    ⟨1, "fio", none, none, [], 0⟩ "abc"
    (RegistrationManager.Reachable.start 1 0 RegistrationManager.Reachable.empty)
    (by decide) (by decide) rfl).1 rfl
  have hacc := (submit_name_accept_reject (fun _ => true)
    (RegistrationManager.start_registration RegistrationManager.empty 1 0) 1 3
    ⟨1, "fio", none, none, [], 0⟩ "Иванов Иван Иванович"
    (RegistrationManager.Reachable.start 1 0 RegistrationManager.Reachable.empty)
    (by decide) (by decide) rfl).2 rfl
  exact ⟨hrej.2, hacc⟩

/-- C9: for a chat with a live (reachable) wizard state in step `'region'`
(Groups), `toggle_group g` flips `g`'s membership and returns whether `g`
is now present; applying it twice (within the TTL) returns the membership
of the selected set to its original state, and the two calls return
alternating added/removed values; called outside `'region'` it returns the
`False` mismatch signal and changes nothing. -/
theorem toggle_group_double_restores
    (m : RegistrationManager) (chat : Int) (g : String) (now₁ now₂ : Int)
    (st : RegistrationState)
    (hr : RegistrationManager.Reachable m) (hm : m chat = some st)
    (hexp : st.is_expired now₁ = false) (hgap : now₂ - now₁ ≤ 1800) :
    (st.registration_step = "region" →
      ∃ st₁, (m.toggle_group chat g now₁).2 chat = some st₁
        ∧ st₁.registration_step = "region"
        ∧ ((m.toggle_group chat g now₁).1 = true ↔ g ∈ st₁.selected_groups)
        ∧ (g ∈ st₁.selected_groups ↔ g ∉ st.selected_groups)
        ∧ ((m.toggle_group chat g now₁).2.toggle_group chat g now₂).1
            = !(m.toggle_group chat g now₁).1
        ∧ ∃ st₂, ((m.toggle_group chat g now₁).2.toggle_group chat g now₂).2 chat
              = some st₂
            ∧ (∀ x, x ∈ st₂.selected_groups ↔ x ∈ st.selected_groups))
    ∧ (st.registration_step ≠ "region" → m.toggle_group chat g now₁ = (false, m)) := by
  have hnd : st.selected_groups.Nodup :=
    ((RegistrationManager.Reachable.inv hr) chat st hm).1
  refine ⟨fun hstep => ?_, fun hstep => RegistrationManager.toggle_group_reject hm hexp hstep⟩
  by_cases hmem : g ∈ st.selected_groups
  · -- first call removes, second re-adds
    have h₁ := RegistrationManager.toggle_group_remove hm hexp hstep hmem
    refine ⟨{ st with selected_groups := st.selected_groups.erase g, timestamp := now₁ },
      ?_, hstep, ?_, ?_, ?_, ?_⟩
    · rw [h₁]; simp [RegistrationManager.put]
    · rw [h₁]; simp [hnd.mem_erase_iff]
    · simp [hnd.mem_erase_iff, hmem]
    · have hm₁ : (m.toggle_group chat g now₁).2 chat
          = some { st with selected_groups := st.selected_groups.erase g,
                           timestamp := now₁ } := by
        rw [h₁]; simp [RegistrationManager.put]
      have hexp₁ : RegistrationState.is_expired
          { st with selected_groups := st.selected_groups.erase g,
                    timestamp := now₁ } now₂ = false := by
        simp only [RegistrationState.is_expired, decide_eq_false_iff_not, not_lt]
        exact hgap
      have hmem₁ : g ∉ ({ st with selected_groups := st.selected_groups.erase g,
                                  timestamp := now₁ } : RegistrationState).selected_groups := by
        simp [hnd.mem_erase_iff]
      rw [RegistrationManager.toggle_group_add hm₁ hexp₁ hstep hmem₁, h₁]
      rfl
    · have hm₁ : (m.toggle_group chat g now₁).2 chat
          = some { st with selected_groups := st.selected_groups.erase g,
                           timestamp := now₁ } := by
        rw [h₁]; simp [RegistrationManager.put]
      have hexp₁ : RegistrationState.is_expired
          { st with selected_groups := st.selected_groups.erase g,
                    timestamp := now₁ } now₂ = false := by
        simp only [RegistrationState.is_expired, decide_eq_false_iff_not, not_lt]
        exact hgap
      have hmem₁ : g ∉ ({ st with selected_groups := st.selected_groups.erase g,
                                  timestamp := now₁ } : RegistrationState).selected_groups := by
        simp [hnd.mem_erase_iff]
      refine ⟨{ st with selected_groups := st.selected_groups.erase g ++ [g],
                        timestamp := now₂ }, ?_, ?_⟩
      · rw [RegistrationManager.toggle_group_add hm₁ hexp₁ hstep hmem₁]
        simp [RegistrationManager.put]
      · intro x
        by_cases hx : x = g
        · subst hx
          simp [hmem]
        · simp [hx, hnd.mem_erase_iff]
  · -- first call adds, second removes the appended occurrence
    have h₁ := RegistrationManager.toggle_group_add hm hexp hstep hmem
    have hre : (st.selected_groups ++ [g]).erase g = st.selected_groups := by
      rw [List.erase_append_right _ hmem, List.erase_cons_head, List.append_nil]
    refine ⟨{ st with selected_groups := st.selected_groups ++ [g], timestamp := now₁ },
      ?_, hstep, ?_, ?_, ?_, ?_⟩
    · rw [h₁]; simp [RegistrationManager.put]
    · rw [h₁]; simp
    · simp [hmem]
    · have hm₁ : (m.toggle_group chat g now₁).2 chat
          = some { st with selected_groups := st.selected_groups ++ [g],
                           timestamp := now₁ } := by
        rw [h₁]; simp [RegistrationManager.put]
      have hexp₁ : RegistrationState.is_expired
          { st with selected_groups := st.selected_groups ++ [g],
                    timestamp := now₁ } now₂ = false := by
        simp only [RegistrationState.is_expired, decide_eq_false_iff_not, not_lt]
        exact hgap
      have hmem₁ : g ∈ ({ st with selected_groups := st.selected_groups ++ [g],
                                  timestamp := now₁ } : RegistrationState).selected_groups := by
        simp
      rw [RegistrationManager.toggle_group_remove hm₁ hexp₁ hstep hmem₁, h₁]
      rfl
    · have hm₁ : (m.toggle_group chat g now₁).2 chat
          = some { st with selected_groups := st.selected_groups ++ [g],
                           timestamp := now₁ } := by
        rw [h₁]; simp [RegistrationManager.put]
      have hexp₁ : RegistrationState.is_expired
          { st with selected_groups := st.selected_groups ++ [g],
                    timestamp := now₁ } now₂ = false := by
        simp only [RegistrationState.is_expired, decide_eq_false_iff_not, not_lt]
        exact hgap
      have hmem₁ : g ∈ ({ st with selected_groups := st.selected_groups ++ [g],
                                  timestamp := now₁ } : RegistrationState).selected_groups := by
        simp
      refine ⟨{ st with selected_groups := (st.selected_groups ++ [g]).erase g,
                        timestamp := now₂ }, ?_, ?_⟩
      · rw [RegistrationManager.toggle_group_remove hm₁ hexp₁ hstep hmem₁]
        simp [RegistrationManager.put]
      · intro x
        simp [hre]

/-- Witness for C9: toggling `KRR` twice on the demo `'region'` state
(empty selection) alternates the return value and restores the empty
membership. -/
theorem toggle_group_double_restores_witness :
    ∃ st₁, (regDemoRegion.toggle_group 1 "KRR" 2).2 1 = some st₁
      ∧ st₁.registration_step = "region"
      ∧ ((regDemoRegion.toggle_group 1 "KRR" 2).1 = true ↔ "KRR" ∈ st₁.selected_groups)
      ∧ ("KRR" ∈ st₁.selected_groups ↔
          "KRR" ∉ (⟨1, "region", some "Иванов Иван Иванович", none, [], 1⟩ :
            RegistrationState).selected_groups)
      ∧ (((regDemoRegion.toggle_group 1 "KRR" 2).2.toggle_group 1 "KRR" 3).1
          = !(regDemoRegion.toggle_group 1 "KRR" 2).1)
      ∧ ∃ st₂, ((regDemoRegion.toggle_group 1 "KRR" 2).2.toggle_group 1 "KRR" 3).2 1
            = some st₂
          ∧ (∀ x, x ∈ st₂.selected_groups ↔
              x ∈ (⟨1, "region", some "Иванов Иван Иванович", none, [], 1⟩ :
                RegistrationState).selected_groups) := by
  exact (toggle_group_double_restores regDemoRegion 1 "KRR" 2 3
    ⟨1, "region", some "Иванов Иван Иванович", none, [], 1⟩
    (by unfold regDemoRegion
        exact RegistrationManager.Reachable.fio 1 "Иванов Иван Иванович" 1
          (RegistrationManager.Reachable.start 1 0 RegistrationManager.Reachable.empty))
    (by decide) (by decide) (by decide)).1 rfl

/-- C10: when the user has no tracked session — absent, or lazily evicted
because it expired — `smart_update_current_menu` reports not-handled
(`False`) and issues zero platform edit calls, leaving delivery of a fresh
top-level message entirely to the caller. -/
theorem no_session_not_handled_zero_calls
    (m : MenuManager) (user now : Int) (t_ms : Nat) (em ct ut : String)
    (editFn : EditCall → EditOutcome) :
    (m user = none →
       smart_update_current_menu m user em ct now t_ms ut editFn = ⟨false, m, []⟩)
    ∧ (∀ st, m user = some st → st.is_expired now = true →
       smart_update_current_menu m user em ct now t_ms ut editFn
         = ⟨false, m.clear_menu user, []⟩
       ∧ (m.clear_menu user) user = none) := by
  constructor
  · intro hm
    unfold smart_update_current_menu
    rw [MenuManager.get_menu_none hm]
  · intro st hm hexp
    refine ⟨?_, by simp [MenuManager.clear_menu]⟩
    unfold smart_update_current_menu
    rw [MenuManager.get_menu_expired hm hexp]

/-- Witness for C10: a user with no tracked menu, and the demo session read
after its TTL (t=3601), both yield not-handled with an empty list of
platform calls. -/
theorem no_session_not_handled_zero_calls_witness :
    (smart_update_current_menu MenuManager.empty 2 "e" "c" 0 0 "u"
        (fun _ => EditOutcome.success)).handled = false
    ∧ (smart_update_current_menu MenuManager.empty 2 "e" "c" 0 0 "u"
        (fun _ => EditOutcome.success)).edits = []
    ∧ (smart_update_current_menu menuDemo 1 "e" "c" 3601 0 "u"
        (fun _ => EditOutcome.success)).handled = false
    ∧ (smart_update_current_menu menuDemo 1 "e" "c" 3601 0 "u"
        (fun _ => EditOutcome.success)).edits = [] := by
  have h1 := (no_session_not_handled_zero_calls MenuManager.empty 2 0 0 "e" "c" "u"
    (fun _ => EditOutcome.success)).1 rfl
  have h2 := (no_session_not_handled_zero_calls menuDemo 1 3601 0 "e" "c" "u"
    (fun _ => EditOutcome.success)).2 ⟨5, 7, "main", [], 0⟩ (by decide) (by decide)
  exact ⟨by rw [h1], by rw [h1], by rw [h2.1], by rw [h2.1]⟩
